import Mathlib

/-!
Verification of the order-placement, snapshot and connection-lifecycle logic of the
open-alpha-trade-in-okx frontend.  Each definition is a shallow embedding of the
corresponding TypeScript source function; numbers entered in form fields are modelled
as `Option ℚ` (`none` is an empty field, `some q` a field parsing to the value `q`).
-/

inductive Side
  | buy
  | sell
  deriving DecidableEq

inductive OrderType
  | market
  | limit
  deriving DecidableEq

/-- Outcome of an awaited `placeOKXOrder` (or raw fetch) call as observed by the
submit handler: a success response, a business failure (`success: false` with an
optional error string), or a thrown exception. -/
inductive PlaceOutcome
  | success (orderId : String)
  | businessFail (err : Option String)
  | thrown (msg : String)
  deriving DecidableEq

/-- The validation test `!field || parseFloat(field) <= 0` used by both order forms:
an empty field or a nonpositive parsed value is invalid. -/
def invalidNum : Option ℚ → Bool
  | none => true
  | some q => decide (q ≤ 0)

/-- `PlaceOKXOrderRequest` from `frontend/app/lib/api.ts` (lines 399-405): the full
set of fields of an order intent handed to `placeOKXOrder`.  There is no
correlation-id / client-order-id field. -/
structure PlaceOKXOrderRequest where
  symbol : String
  side : Side
  quantity : ℚ
  orderType : OrderType
  price : Option ℚ
  deriving DecidableEq

/-- The snake_case body `placeOKXOrder` serializes and POSTs to
`/okx-account/order` (api.ts lines 407-425). -/
structure BackendOrderRequest where
  symbol : String
  side : Side
  quantity : ℚ
  order_type : OrderType
  price : Option ℚ
  deriving DecidableEq

/-- `placeOKXOrder` (api.ts lines 407-425): renames the camelCase request to the
backend shape and issues exactly one POST, unconditionally. -/
def placeOKXOrderWire (r : PlaceOKXOrderRequest) : BackendOrderRequest :=
  { symbol := r.symbol
    side := r.side
    quantity := r.quantity
    order_type := r.orderType
    price := r.price }

/-- The sequence of remote submissions produced by a sequence of `placeOKXOrder`
calls: one wire request per call, with no duplicate detection anywhere in the
client. -/
def placeOKXOrderTrace (calls : List PlaceOKXOrderRequest) : List BackendOrderRequest :=
  calls.map placeOKXOrderWire

/-- The trading-form state of `ManualTradingView` (symbol, side, orderType, amount,
price, isSubmitting). -/
structure TradingFormState where
  symbol : String
  side : Side
  orderType : OrderType
  amount : Option ℚ
  price : Option ℚ
  isSubmitting : Bool
  deriving DecidableEq

/-- Observable effects of one run of `ManualTradingView.handleSubmitOrder`: the final
component state, the `placeOKXOrder` invocation if one was made, and the validation
error reported (as a toast) if the intent was rejected locally. -/
structure SubmitRun where
  finalState : TradingFormState
  request : Option PlaceOKXOrderRequest
  validationError : Option String
  deriving DecidableEq

/-- `ManualTradingView.handleSubmitOrder` (ManualTradingView.tsx lines 76-116):
validate amount, then (for limit orders) price; on validation failure report and
return without any network call; otherwise set isSubmitting, call `placeOKXOrder`,
clear amount/price exactly on success, and reset isSubmitting in `finally`. -/
def handleSubmitOrderRun (s : TradingFormState) (o : PlaceOutcome) : SubmitRun :=
  if invalidNum s.amount then
    { finalState := s
      request := none
      validationError := some "Please enter a valid amount" }
  else if s.orderType = OrderType.limit ∧ invalidNum s.price then
    { finalState := s
      request := none
      validationError := some "Please enter a valid price for limit order" }
  else
    let req : PlaceOKXOrderRequest :=
      { symbol := s.symbol
        side := s.side
        quantity := s.amount.getD 0
        orderType := s.orderType
        price := if s.orderType = OrderType.limit then s.price else none }
    match o with
    | PlaceOutcome.success _ =>
        { finalState := { s with amount := none, price := none, isSubmitting := false }
          request := some req
          validationError := none }
    | _ =>
        { finalState := { s with isSubmitting := false }
          request := some req
          validationError := none }

/-- The form state of `OKXTradingPanel` (symbol base, side, orderType, quantity,
price, loading). -/
structure PanelState where
  symbol : String
  side : Side
  orderType : OrderType
  quantity : Option ℚ
  price : Option ℚ
  loading : Bool
  deriving DecidableEq

/-- Observable effects of one run of `OKXTradingPanel.handlePlaceOrder`. -/
structure PanelRun where
  finalState : PanelState
  request : Option BackendOrderRequest
  validationError : Option String
  deriving DecidableEq

/-- `OKXTradingPanel.handlePlaceOrder` (part_000 lines 497-542): same validation
shape; on submission the canonical symbol is assembled as base ++ "-USDT-SWAP" and
the body POSTed to /api/okx-account/order; on success quantity resets to 0.001 and
price clears; loading resets on every path. -/
def handlePlaceOrderRun (s : PanelState) (o : PlaceOutcome) : PanelRun :=
  if invalidNum s.quantity then
    { finalState := s
      request := none
      validationError := some "Please enter a valid quantity" }
  else if s.orderType = OrderType.limit ∧ invalidNum s.price then
    { finalState := s
      request := none
      validationError := some "Please enter a valid price for limit order" }
  else
    let req : BackendOrderRequest :=
      { symbol := s.symbol ++ "-USDT-SWAP"
        side := s.side
        quantity := s.quantity.getD 0
        order_type := s.orderType
        price := if s.orderType = OrderType.limit then s.price else none }
    match o with
    | PlaceOutcome.success _ =>
        { finalState := { s with quantity := some (1 / 1000 : ℚ), price := none, loading := false }
          request := some req
          validationError := none }
    | _ =>
        { finalState := { s with loading := false }
          request := some req
          validationError := none }

lemma invalidNum_eq_false_iff (v : Option ℚ) :
    invalidNum v = false ↔ ∃ q, v = some q ∧ 0 < q := by
  cases v with
  | none => simp [invalidNum]
  | some q => simp [invalidNum, not_le]

lemma invalidNum_eq_true_iff (v : Option ℚ) :
    invalidNum v = true ↔ v.elim True fun q => q ≤ 0 := by
  cases v with
  | none => simp [invalidNum]
  | some q => simp [invalidNum]

lemma handleSubmitOrderRun_request_spec (s : TradingFormState) (o : PlaceOutcome)
    (ha : ¬ invalidNum s.amount = true)
    (hl : ¬ (s.orderType = OrderType.limit ∧ invalidNum s.price = true)) :
    (handleSubmitOrderRun s o).request =
      some { symbol := s.symbol
             side := s.side
             quantity := s.amount.getD 0
             orderType := s.orderType
             price := if s.orderType = OrderType.limit then s.price else none } := by
  cases o <;> simp [handleSubmitOrderRun, ha, hl]

lemma handlePlaceOrderRun_request_spec (s : PanelState) (o : PlaceOutcome)
    (ha : ¬ invalidNum s.quantity = true)
    (hl : ¬ (s.orderType = OrderType.limit ∧ invalidNum s.price = true)) :
    (handlePlaceOrderRun s o).request =
      some { symbol := s.symbol ++ "-USDT-SWAP"
             side := s.side
             quantity := s.quantity.getD 0
             order_type := s.orderType
             price := if s.orderType = OrderType.limit then s.price else none } := by
  cases o <;> simp [handlePlaceOrderRun, ha, hl]

/-- Claim C1: an order intent whose quantity is missing or nonpositive, or which is a
limit order with a missing or nonpositive price, is rejected by local validation
(the handler reports a validation error) and the submission function is never
invoked, so no network call to the order endpoint is made; conversely the
submission request is built only when the quantity is positive and, for limit
orders, the price is positive.  This holds for both placement paths:
ManualTradingView.handleSubmitOrder and OKXTradingPanel.handlePlaceOrder. -/
theorem placeOrder_validation_guards (s : TradingFormState) (p : PanelState)
    (o o' : PlaceOutcome) :
    ((s.amount.elim True fun q => q ≤ 0) ∨
        (s.orderType = OrderType.limit ∧ s.price.elim True fun q => q ≤ 0) →
      (handleSubmitOrderRun s o).request = none ∧
        (handleSubmitOrderRun s o).validationError.isSome) ∧
    (∀ r, (handleSubmitOrderRun s o).request = some r →
      ∃ q, s.amount = some q ∧ 0 < q ∧ r.quantity = q ∧
        (s.orderType = OrderType.limit → ∃ pr, s.price = some pr ∧ 0 < pr ∧
          r.price = some pr)) ∧
    ((p.quantity.elim True fun q => q ≤ 0) ∨
        (p.orderType = OrderType.limit ∧ p.price.elim True fun q => q ≤ 0) →
      (handlePlaceOrderRun p o').request = none ∧
        (handlePlaceOrderRun p o').validationError.isSome) ∧
    (∀ r, (handlePlaceOrderRun p o').request = some r →
      ∃ q, p.quantity = some q ∧ 0 < q ∧ r.quantity = q ∧
        (p.orderType = OrderType.limit → ∃ pr, p.price = some pr ∧ 0 < pr ∧
          r.price = some pr)) := by
  refine ⟨?_, ?_, ?_, ?_⟩
  · intro h
    rcases h with h | ⟨hlim, hpr⟩
    · rw [← invalidNum_eq_true_iff] at h
      simp [handleSubmitOrderRun, h]
    · by_cases ha : invalidNum s.amount
      · simp [handleSubmitOrderRun, ha]
      · rw [← invalidNum_eq_true_iff] at hpr
        simp [handleSubmitOrderRun, ha, hlim, hpr]
  · intro r hr
    by_cases ha : invalidNum s.amount
    · simp [handleSubmitOrderRun, ha] at hr
    · by_cases hl : s.orderType = OrderType.limit ∧ invalidNum s.price
      · simp [handleSubmitOrderRun, ha, hl] at hr
      · rcases (invalidNum_eq_false_iff s.amount).mp (by simpa using ha) with ⟨q, hq, hqpos⟩
        have hreq := Option.some.inj ((handleSubmitOrderRun_request_spec s o ha hl).symm.trans hr)
        refine ⟨q, hq, hqpos, by simp [← hreq, hq], ?_⟩
        intro hlim
        have hp : ¬ invalidNum s.price = true := fun hbad => hl ⟨hlim, hbad⟩
        rcases (invalidNum_eq_false_iff s.price).mp (by simpa using hp) with ⟨pr, hpr, hprpos⟩
        exact ⟨pr, hpr, hprpos, by simp [← hreq, hlim, hpr]⟩
  · intro h
    rcases h with h | ⟨hlim, hpr⟩
    · rw [← invalidNum_eq_true_iff] at h
      simp [handlePlaceOrderRun, h]
    · by_cases ha : invalidNum p.quantity
      · simp [handlePlaceOrderRun, ha]
      · rw [← invalidNum_eq_true_iff] at hpr
        simp [handlePlaceOrderRun, ha, hlim, hpr]
  · intro r hr
    by_cases ha : invalidNum p.quantity
    · simp [handlePlaceOrderRun, ha] at hr
    · by_cases hl : p.orderType = OrderType.limit ∧ invalidNum p.price
      · simp [handlePlaceOrderRun, ha, hl] at hr
      · rcases (invalidNum_eq_false_iff p.quantity).mp (by simpa using ha) with ⟨q, hq, hqpos⟩
        have hreq := Option.some.inj ((handlePlaceOrderRun_request_spec p o' ha hl).symm.trans hr)
        refine ⟨q, hq, hqpos, by simp [← hreq, hq], ?_⟩
        intro hlim
        have hp : ¬ invalidNum p.price = true := fun hbad => hl ⟨hlim, hbad⟩
        rcases (invalidNum_eq_false_iff p.price).mp (by simpa using hp) with ⟨pr, hpr, hprpos⟩
        exact ⟨pr, hpr, hprpos, by simp [← hreq, hlim, hpr]⟩

/-- Claim C1 witness: the validation guard fires at a concrete empty-amount form and a
concrete zero-price limit order, producing no request in either path. -/
theorem placeOrder_validation_guards_witness :
    (handleSubmitOrderRun
        { symbol := "BTC-USDT-SWAP", side := Side.buy, orderType := OrderType.market,
          amount := none, price := none, isSubmitting := false }
        (PlaceOutcome.thrown "network error")).request = none ∧
    (handlePlaceOrderRun
        { symbol := "BTC", side := Side.buy, orderType := OrderType.limit,
          quantity := some 1, price := some 0, loading := false }
        (PlaceOutcome.thrown "network error")).request = none :=
  ⟨((placeOrder_validation_guards
      { symbol := "BTC-USDT-SWAP", side := Side.buy, orderType := OrderType.market,
        amount := none, price := none, isSubmitting := false }
      { symbol := "BTC", side := Side.buy, orderType := OrderType.limit,
        quantity := some 1, price := some 0, loading := false }
      (PlaceOutcome.thrown "network error")
      (PlaceOutcome.thrown "network error")).1 (Or.inl trivial)).1,
   ((placeOrder_validation_guards
      { symbol := "BTC-USDT-SWAP", side := Side.buy, orderType := OrderType.market,
        amount := none, price := none, isSubmitting := false }
      { symbol := "BTC", side := Side.buy, orderType := OrderType.limit,
        quantity := some 1, price := some 0, loading := false }
      (PlaceOutcome.thrown "network error")
      (PlaceOutcome.thrown "network error")).2.2.1
      (Or.inr ⟨rfl, le_refl 0⟩)).1⟩

/-- Claim C10: once validation passes, the submit handler is atomic with respect to
the trading-form state: when the placement returns success=false or throws, every
form field (symbol, side, orderType, amount, price) retains its prior value; the
amount and price fields are cleared exactly when the placement succeeds; and on
every path the in-flight isSubmitting flag ends false. -/
theorem handleSubmitOrder_atomic (s : TradingFormState) (o : PlaceOutcome)
    (hv : (handleSubmitOrderRun s o).validationError = none) :
    (handleSubmitOrderRun s o).finalState.isSubmitting = false ∧
    (∀ e, o = PlaceOutcome.businessFail e →
      (handleSubmitOrderRun s o).finalState = { s with isSubmitting := false }) ∧
    (∀ m, o = PlaceOutcome.thrown m →
      (handleSubmitOrderRun s o).finalState = { s with isSubmitting := false }) ∧
    (∀ oid, o = PlaceOutcome.success oid →
      (handleSubmitOrderRun s o).finalState =
        { s with amount := none, price := none, isSubmitting := false }) ∧
    ((handleSubmitOrderRun s o).finalState.amount = none ∧
        (handleSubmitOrderRun s o).finalState.price = none ↔
      ∃ oid, o = PlaceOutcome.success oid) := by
  by_cases ha : invalidNum s.amount
  · simp [handleSubmitOrderRun, ha] at hv
  · by_cases hl : s.orderType = OrderType.limit ∧ invalidNum s.price
    · simp [handleSubmitOrderRun, ha, hl] at hv
    · have hne : s.amount ≠ none := by
        rcases (invalidNum_eq_false_iff s.amount).mp (by simpa using ha) with ⟨q, hq, -⟩
        simp [hq]
      cases o <;>
        simp [handleSubmitOrderRun, ha, hl, hne]

/-- Claim C10 witness: a concrete valid market order whose placement throws leaves the
form fields unchanged and the isSubmitting flag false. -/
theorem handleSubmitOrder_atomic_witness :
    (handleSubmitOrderRun
        { symbol := "BTC-USDT-SWAP", side := Side.buy, orderType := OrderType.market,
          amount := some 2, price := none, isSubmitting := false }
        (PlaceOutcome.thrown "network error")).finalState =
      { symbol := "BTC-USDT-SWAP", side := Side.buy, orderType := OrderType.market,
        amount := some 2, price := none, isSubmitting := false } :=
  (handleSubmitOrder_atomic
      { symbol := "BTC-USDT-SWAP", side := Side.buy, orderType := OrderType.market,
        amount := some 2, price := none, isSubmitting := false }
      (PlaceOutcome.thrown "network error") (by decide)).2.2.1 "network error" rfl

/-- A concrete duplicate order intent used to exhibit the absence of client-side
idempotency. -/
def dupReq : PlaceOKXOrderRequest :=
  { symbol := "BTC-USDT-SWAP"
    side := Side.buy
    quantity := 1
    orderType := OrderType.market
    price := none }

/-- Claim C2 counterexample: two placeOrder calls carrying identical parameters (there
is no correlation-id field at all in PlaceOKXOrderRequest) produce two identical
remote submissions; the second call is not rejected as a duplicate, refuting the
claimed idempotence at this concrete input. -/
theorem placeOKXOrder_duplicate_not_deduped :
    placeOKXOrderTrace [dupReq, dupReq] =
      [placeOKXOrderWire dupReq, placeOKXOrderWire dupReq] ∧
    (placeOKXOrderTrace [dupReq, dupReq]).length = 2 ∧
    ¬ (placeOKXOrderTrace [dupReq, dupReq]).length ≤ 1 := by
  refine ⟨rfl, rfl, by decide⟩

/-- Claim C2 amended: order intents carry no caller-generated correlation id (the
placement request serializes exactly symbol, side, quantity, order_type and price),
and the client performs no duplicate detection: every placeOrder call issues exactly
one remote submission, so a repeated call with the same parameters produces a second
remote order rather than returning the first call's result. -/
theorem placeOKXOrder_each_call_submits (calls : List PlaceOKXOrderRequest) :
    (placeOKXOrderTrace calls).length = calls.length ∧
    ∀ r ∈ calls, placeOKXOrderWire r ∈ placeOKXOrderTrace calls := by
  refine ⟨by simp [placeOKXOrderTrace], ?_⟩
  intro r hr
  exact List.mem_map_of_mem placeOKXOrderWire hr

/-- `OKXBalance` interface (api.ts lines 289-294). -/
structure OKXBalance where
  currency : String
  total : ℚ
  free : ℚ
  used : ℚ
  deriving DecidableEq

/-- `OKXPosition` interface (api.ts lines 296-311). -/
structure OKXPosition where
  symbol : String
  side : String
  contracts : ℚ
  contractSize : ℚ
  notional : ℚ
  leverage : ℚ
  unrealizedPnl : ℚ
  percentage : ℚ
  entryPrice : ℚ
  markPrice : ℚ
  liquidationPrice : ℚ
  marginMode : String
  timestamp : ℚ
  datetime : String
  deriving DecidableEq

/-- `OKXOrder` interface (api.ts lines 313-326). -/
structure OKXOrder where
  id : String
  clientOrderId : Option String
  symbol : String
  type : String
  side : String
  price : ℚ
  amount : ℚ
  filled : ℚ
  remaining : ℚ
  status : String
  timestamp : ℚ
  datetime : String
  deriving DecidableEq

/-- `OKXTrade` interface (api.ts lines 328-340); the dynamically-typed fee field is
modelled as an optional (cost, currency) pair. -/
structure OKXTrade where
  id : String
  order : String
  symbol : String
  type : String
  side : String
  price : ℚ
  amount : ℚ
  cost : ℚ
  fee : Option (ℚ × String)
  timestamp : ℚ
  datetime : String
  deriving DecidableEq

/-- `OKXAccountSummary` interface (api.ts lines 342-350). -/
structure OKXAccountSummary where
  total_balance_usdt : ℚ
  positions_value : ℚ
  unrealized_pnl : ℚ
  positions_count : ℕ
  open_orders_count : ℕ
  free_usdt : ℚ
  used_usdt : ℚ
  deriving DecidableEq

/-- Modelled from the spec: the backend summary-assembly endpoint
(/okx-account/summary, consumed through getOKXAccountSummary) is Python code not
under src/.  Per the spec, the summary derivation is: total balance = local free +
used balances valued in the quote currency plus positions value (the sum of absolute
notionals across positions); unrealized P&L = the sum of position unrealized P&L;
used margin = total minus free. -/
def assembleSummary (freeUsdt usedUsdt : ℚ) (positions : List OKXPosition)
    (openOrdersCount : ℕ) : OKXAccountSummary :=
  let positionsValue := (positions.map fun p => |p.notional|).sum
  { total_balance_usdt := freeUsdt + usedUsdt + positionsValue
    positions_value := positionsValue
    unrealized_pnl := (positions.map fun p => p.unrealizedPnl).sum
    positions_count := positions.length
    open_orders_count := openOrdersCount
    free_usdt := freeUsdt
    used_usdt := usedUsdt + positionsValue }

/-- Claim C4: every successfully-assembled snapshot summary satisfies
used_usdt = total_balance_usdt - free_usdt. -/
theorem summary_used_eq_total_sub_free (freeUsdt usedUsdt : ℚ)
    (positions : List OKXPosition) (openOrdersCount : ℕ) :
    (assembleSummary freeUsdt usedUsdt positions openOrdersCount).used_usdt =
      (assembleSummary freeUsdt usedUsdt positions openOrdersCount).total_balance_usdt -
        (assembleSummary freeUsdt usedUsdt positions openOrdersCount).free_usdt := by
  simp only [assembleSummary]
  ring

/-- Splits a character list at every occurrence of the separator character. -/
def splitAux (c : Char) : List Char → List (List Char)
  | [] => [[]]
  | x :: xs =>
    match splitAux c xs with
    | [] => [[x]]
    | y :: ys => if x = c then [] :: y :: ys else (x :: y) :: ys

/-- Splits a string at every occurrence of the separator character. -/
def splitOnChar (c : Char) (s : String) : List String :=
  (splitAux c s.data).map String.mk

/-- Modelled from the spec: the exchange adapter's canonical-to-wire symbol
translation is backend Python code not under src/.  Per the spec and the README
(part_006, symbol-format-conversion section), the canonical form BASE-QUOTE-SWAP is
translated to the wire form pairing base/quote with the settlement currency:
BTC-USDT-SWAP becomes BTC/USDT:USDT. -/
def toWire (s : String) : String :=
  match splitOnChar '-' s with
  | [base, quote, suffixPart] =>
      if suffixPart = "SWAP" then base ++ "/" ++ quote ++ ":" ++ quote else s
  | _ => s

/-- Modelled from the spec: the wire-to-canonical direction of the same translation;
BASE/QUOTE:SETTLE maps back to BASE-QUOTE-SWAP. -/
def toCanonical (w : String) : String :=
  match splitOnChar '/' w with
  | [base, rest] =>
      match splitOnChar ':' rest with
      | [quote, _] => base ++ "-" ++ quote ++ "-SWAP"
      | _ => w
  | _ => w

/-- `TRADING_PAIRS` (ManualTradingView.tsx lines 22-33): the canonical symbols offered
by the manual-trading form. -/
def TRADING_PAIRS : List String :=
  ["BTC-USDT-SWAP", "ETH-USDT-SWAP", "SOL-USDT-SWAP", "BNB-USDT-SWAP", "XRP-USDT-SWAP",
   "DOGE-USDT-SWAP", "ADA-USDT-SWAP", "AVAX-USDT-SWAP", "MATIC-USDT-SWAP", "LINK-USDT-SWAP"]

/-- The supported instrument set: the trading pairs offered by the form together with
the two further pairs listed in the README's supported-pairs section (DOT, LTC). -/
def supportedInstruments : List String :=
  TRADING_PAIRS ++ ["DOT-USDT-SWAP", "LTC-USDT-SWAP"]

/-- Claim C3: on the supported instrument set, symbol translation between the
canonical BASE-QUOTE-SWAP form and the exchange wire form is a bijection in the sense
that toWire (toCanonical (toWire s)) = toWire s for every supported canonical
symbol s; moreover the translation matches the README examples. -/
theorem symbol_translation_roundtrip (s : String) (h : s ∈ supportedInstruments) :
    toWire (toCanonical (toWire s)) = toWire s ∧
    toCanonical (toWire s) = s := by
  fin_cases h <;> exact ⟨rfl, rfl⟩

/-- Claim C3 witness: the roundtrip at the concrete supported symbol BTC-USDT-SWAP,
whose wire form is BTC/USDT:USDT as in the README. -/
theorem symbol_translation_roundtrip_witness :
    toWire "BTC-USDT-SWAP" = "BTC/USDT:USDT" ∧
    toWire (toCanonical (toWire "BTC-USDT-SWAP")) = toWire "BTC-USDT-SWAP" :=
  ⟨rfl, (symbol_translation_roundtrip "BTC-USDT-SWAP" (by simp [supportedInstruments,
    TRADING_PAIRS])).1⟩

/-- Shape of every section-query response: a success flag plus the payload used when
the flag is set (`{ success, assets | positions | orders | trades | summary }`). -/
structure ApiResp (α : Type) where
  success : Bool
  payload : α
  deriving DecidableEq

/-- The data states of `OKXAccountView` (part_000 lines 32-37). -/
structure OKXViewState where
  balance : List OKXBalance
  positions : List OKXPosition
  openOrders : List OKXOrder
  orderHistory : List OKXOrder
  trades : List OKXTrade
  summary : Option OKXAccountSummary
  deriving DecidableEq

/-- The initial component state: every section starts as the empty list and the
summary as null. -/
def initialViewState : OKXViewState :=
  { balance := []
    positions := []
    openOrders := []
    orderHistory := []
    trades := []
    summary := none }

/-- `OKXAccountView.fetchAllData` (part_000 lines 39-69): fetch the summary, then the
three fast section queries; each section state is overwritten only when its response
has success = true, otherwise the previous value is silently retained. -/
def fetchAllData (s : OKXViewState) (summaryRes : ApiResp OKXAccountSummary)
    (balanceRes : ApiResp (List OKXBalance)) (positionsRes : ApiResp (List OKXPosition))
    (openOrdersRes : ApiResp (List OKXOrder)) : OKXViewState :=
  let s1 := if summaryRes.success then { s with summary := some summaryRes.payload } else s
  let s2 := if balanceRes.success then { s1 with balance := balanceRes.payload } else s1
  let s3 := if positionsRes.success then { s2 with positions := positionsRes.payload } else s2
  if openOrdersRes.success then { s3 with openOrders := openOrdersRes.payload } else s3

/-- A summary value with all fields zero, used for concrete snapshot rounds. -/
def zeroSummary : OKXAccountSummary :=
  { total_balance_usdt := 0
    positions_value := 0
    unrealized_pnl := 0
    positions_count := 0
    open_orders_count := 0
    free_usdt := 0
    used_usdt := 0 }

/-- Claim C5 counterexample: from the initial component state, a snapshot round in
which the positions query fails while balances and open orders succeed yields
positions = [] — the failed fetch is presented exactly as an empty result — and the
whole resulting state is equal to the state produced by a round whose positions
query succeeds with an empty list, so the failure is not distinguishable from
emptiness and no unavailable marker exists. -/
theorem failed_positions_presented_as_empty :
    (fetchAllData initialViewState { success := true, payload := zeroSummary }
        { success := true, payload := [] } { success := false, payload := [] }
        { success := true, payload := [] }).positions = [] ∧
    fetchAllData initialViewState { success := true, payload := zeroSummary }
        { success := true, payload := [] } { success := false, payload := [] }
        { success := true, payload := [] } =
      fetchAllData initialViewState { success := true, payload := zeroSummary }
        { success := true, payload := [] } { success := true, payload := [] }
        { success := true, payload := [] } :=
  ⟨rfl, rfl⟩

/-- Claim C5 amended: when a section query fails, that section of the component state
retains its previous value (initially the empty list) while the successful sections
are still applied; there is no unavailable marker, so a failed fetch from the
initial state is presented identically to an empty successful fetch. -/
theorem failed_section_retains_previous (s : OKXViewState)
    (summaryRes : ApiResp OKXAccountSummary) (balanceRes : ApiResp (List OKXBalance))
    (positionsRes : ApiResp (List OKXPosition)) (openOrdersRes : ApiResp (List OKXOrder))
    (h : positionsRes.success = false) :
    (fetchAllData s summaryRes balanceRes positionsRes openOrdersRes).positions =
      s.positions := by
  simp only [fetchAllData, h, Bool.false_eq_true, if_false]
  split <;> split <;> split <;> rfl

/-- Claim C5 amended witness: the retention fact at the concrete failing round used in
the counterexample. -/
theorem failed_section_retains_previous_witness :
    (fetchAllData initialViewState { success := true, payload := zeroSummary }
        { success := true, payload := [] } { success := false, payload := [] }
        { success := true, payload := [] }).positions = initialViewState.positions :=
  failed_section_retains_previous initialViewState
    { success := true, payload := zeroSummary } { success := true, payload := [] }
    { success := false, payload := [] } { success := true, payload := [] } rfl

/-- The backend endpoints the components can query. -/
inductive Endpoint
  | balanceQ
  | positionsQ
  | openOrdersQ
  | orderHistoryQ
  | tradesQ
  deriving DecidableEq

/-- The queries issued by `ManualTradingView.fetchAllData` (part_001 lines 61-80):
exactly the three concurrent fast section queries, never the history or trades
endpoints. -/
def manualFetchAllDataRequests : List Endpoint :=
  [Endpoint.balanceQ, Endpoint.positionsQ, Endpoint.openOrdersQ]

/-- `ManualTradingView.fetchOrderHistory` (part_001 lines 83-92): when the cached
order-history list is nonempty and no force-refresh flag is given, return at once
(no request, state unchanged); otherwise issue the query and overwrite the cache on
a successful response.  Returns (request issued?, new cached history). -/
def fetchOrderHistoryRun (orderHistory : List OKXOrder) (forceRefresh : Bool)
    (res : ApiResp (List OKXOrder)) : Bool × List OKXOrder :=
  if 0 < orderHistory.length ∧ forceRefresh = false then (false, orderHistory)
  else (true, if res.success then res.payload else orderHistory)

/-- `ManualTradingView.fetchTrades` (part_001 lines 95-104): same caching discipline
for the trades cache. -/
def fetchTradesRun (trades : List OKXTrade) (forceRefresh : Bool)
    (res : ApiResp (List OKXTrade)) : Bool × List OKXTrade :=
  if 0 < trades.length ∧ forceRefresh = false then (false, trades)
  else (true, if res.success then res.payload else trades)

/-- The tab-switch dispatch (part_001 lines 379-383): switching to the history tab
invokes fetchOrderHistory without the force flag, switching to the trades tab
invokes fetchTrades without the force flag, and no other tab value invokes either.
Returns the endpoints actually requested plus the new caches. -/
def onTabChange (value : String) (orderHistory : List OKXOrder) (trades : List OKXTrade)
    (histRes : ApiResp (List OKXOrder)) (tradesRes : ApiResp (List OKXTrade)) :
    List Endpoint × List OKXOrder × List OKXTrade :=
  let hr := if value = "history" then fetchOrderHistoryRun orderHistory false histRes
            else (false, orderHistory)
  let tr := if value = "trades" then fetchTradesRun trades false tradesRes
            else (false, trades)
  ((if hr.1 then [Endpoint.orderHistoryQ] else []) ++
      (if tr.1 then [Endpoint.tradesQ] else []),
    hr.2, tr.2)

/-- Observable effects of one run of `ManualTradingView.handleRefresh`. -/
structure RefreshRun where
  historyCacheAtFetch : List OKXOrder
  tradesCacheAtFetch : List OKXTrade
  historyRequestIssued : Bool
  tradesRequestIssued : Bool
  snapshotRequests : List Endpoint
  finalOrderHistory : List OKXOrder
  finalTrades : List OKXTrade
  deriving DecidableEq

/-- `ManualTradingView.handleRefresh` (part_001 lines 153-166): clear both history
caches, re-run the snapshot fetch, then force-refresh both history queries against
the cleared caches. -/
def handleRefreshRun (_orderHistory : List OKXOrder) (_trades : List OKXTrade)
    (histRes : ApiResp (List OKXOrder)) (tradesRes : ApiResp (List OKXTrade)) : RefreshRun :=
  let clearedHistory : List OKXOrder := []
  let clearedTrades : List OKXTrade := []
  let hr := fetchOrderHistoryRun clearedHistory true histRes
  let tr := fetchTradesRun clearedTrades true tradesRes
  { historyCacheAtFetch := clearedHistory
    tradesCacheAtFetch := clearedTrades
    historyRequestIssued := hr.1
    tradesRequestIssued := tr.1
    snapshotRequests := manualFetchAllDataRequests
    finalOrderHistory := hr.2
    finalTrades := tr.2 }

/-- Claim C6: the default snapshot fetch never queries the order-history or trades
endpoints; a tab switch to any value other than the history or trades views issues
no history request; a history (or trades) request served from a present (nonempty)
cache with no force-refresh flag short-circuits, issuing no network request and
leaving the cache unchanged; and the forced-refresh path clears both caches before
re-fetching, always issuing the requests. -/
theorem history_lazy_fetch_discipline :
    (Endpoint.orderHistoryQ ∉ manualFetchAllDataRequests ∧
      Endpoint.tradesQ ∉ manualFetchAllDataRequests) ∧
    (∀ value orderHistory trades histRes tradesRes,
      value ≠ "history" → value ≠ "trades" →
        (onTabChange value orderHistory trades histRes tradesRes).1 = []) ∧
    (∀ orderHistory histRes, orderHistory ≠ [] →
      fetchOrderHistoryRun orderHistory false histRes = (false, orderHistory)) ∧
    (∀ trades tradesRes, trades ≠ [] →
      fetchTradesRun trades false tradesRes = (false, trades)) ∧
    (∀ orderHistory trades histRes tradesRes,
      (handleRefreshRun orderHistory trades histRes tradesRes).historyCacheAtFetch = [] ∧
      (handleRefreshRun orderHistory trades histRes tradesRes).tradesCacheAtFetch = [] ∧
      (handleRefreshRun orderHistory trades histRes tradesRes).historyRequestIssued = true ∧
      (handleRefreshRun orderHistory trades histRes tradesRes).tradesRequestIssued = true) := by
  refine ⟨⟨by decide, by decide⟩, ?_, ?_, ?_, ?_⟩
  · intro value orderHistory trades histRes tradesRes hval1 hval2
    simp [onTabChange, hval1, hval2]
  · intro orderHistory histRes hne
    have hlen : 0 < orderHistory.length := List.length_pos.mpr hne
    simp [fetchOrderHistoryRun, hlen]
  · intro trades tradesRes hne
    have hlen : 0 < trades.length := List.length_pos.mpr hne
    simp [fetchTradesRun, hlen]
  · intro orderHistory trades histRes tradesRes
    refine ⟨rfl, rfl, ?_, ?_⟩ <;>
      simp [handleRefreshRun, fetchOrderHistoryRun, fetchTradesRun]

/-- A concrete cached order used to instantiate the short-circuit behavior. -/
def sampleOrder : OKXOrder :=
  { id := "1234567890"
    clientOrderId := none
    symbol := "BTC-USDT-SWAP"
    type := "limit"
    side := "buy"
    price := 50000
    amount := 1
    filled := 0
    remaining := 1
    status := "open"
    timestamp := 0
    datetime := "2024-01-01T00:00:00Z" }

/-- Claim C6 witness: with a nonempty cached history and no force flag, the history
fetch issues no request and leaves the cache unchanged. -/
theorem history_lazy_fetch_discipline_witness :
    fetchOrderHistoryRun [sampleOrder] false { success := true, payload := [] } =
      (false, [sampleOrder]) :=
  history_lazy_fetch_discipline.2.2.1 [sampleOrder]
    { success := true, payload := [] } (by simp)

/-- WebSocket ready states (CONNECTING / OPEN / CLOSING / CLOSED). -/
inductive ReadyState
  | connecting
  | opened
  | closing
  | closed
  deriving DecidableEq

/-- The command messages the client sends over the socket (part_002). -/
inductive ClientMsg
  | bootstrapCmd (username : String) (initialCapital : ℚ)
  | getSnapshot
  | switchUserCmd (username : String)
  | switchAccountCmd (accountId : ℤ)
  deriving DecidableEq

/-- `handleOpen` (part_002 lines 91-97): on every (re)connection the client sends the
single bootstrap command with the hardcoded default identity; nothing else is sent
on open. -/
def handleOpenSends : List ClientMsg :=
  [ClientMsg.bootstrapCmd "default" 10000]

/-- Recognizes the bootstrap command. -/
def isBootstrapMsg : ClientMsg → Bool
  | ClientMsg.bootstrapCmd _ _ => true
  | _ => false

/-- Observable effects of `handleClose` (part_002 lines 151-165): the module-level
singleton after the handler, and whether a reconnection attempt was scheduled. -/
structure CloseRun where
  singletonAfter : Option ReadyState
  reconnectScheduled : Bool
  deriving DecidableEq

/-- `handleClose` (part_002 lines 151-165): always null the singleton; schedule the
3-second reconnection exactly when the closure code is neither 1000 (normal) nor
1001 (going away). -/
def handleCloseRun (code : ℕ) : CloseRun :=
  { singletonAfter := none
    reconnectScheduled := if code ≠ 1000 ∧ code ≠ 1001 then true else false }

/-- Claim C7: a close event schedules a reconnection attempt if and only if the
closure code is neither 1000 nor 1001, and every successful (re)connection sends
exactly one bootstrap command on open (so no session state is assumed to survive
a disconnect). -/
theorem close_reconnect_policy_and_rebootstrap :
    (∀ code, (handleCloseRun code).reconnectScheduled = true ↔
      (code ≠ 1000 ∧ code ≠ 1001)) ∧
    handleOpenSends = [ClientMsg.bootstrapCmd "default" 10000] ∧
    (handleOpenSends.filter isBootstrapMsg).length = 1 ∧
    handleOpenSends.length = 1 := by
  refine ⟨?_, rfl, rfl, rfl⟩
  intro code
  by_cases h : code ≠ 1000 ∧ code ≠ 1001 <;> simp [handleCloseRun, h]

/-- Claim C7 witness: the abnormal closure code 1006 schedules a reconnect, and the
normal closure code 1000 does not. -/
theorem close_reconnect_policy_witness :
    (handleCloseRun 1006).reconnectScheduled = true ∧
    ¬ (handleCloseRun 1000).reconnectScheduled = true :=
  ⟨(close_reconnect_policy_and_rebootstrap.1 1006).mpr (by decide),
   fun h => ((close_reconnect_policy_and_rebootstrap.1 1000).mp h).1 rfl⟩

/-- Module-level connection state: the `__WS_SINGLETON__` reference (part_002 lines
6-7) together with a count of sockets constructed and not yet closed. -/
structure WSWorld where
  singleton : Option ReadyState
  liveSockets : ℕ
  deriving DecidableEq

/-- The `created` check of the connection effect (part_002 lines 80-81, 189-193):
construct a new socket exactly when the singleton is null or its readyState is
CLOSING or CLOSED. -/
def wsCreatedCheck : Option ReadyState → Bool
  | none => true
  | some ReadyState.closing => true
  | some ReadyState.closed => true
  | some _ => false

/-- Connection-lifecycle events: a run of the connection-setup effect, the open
event, and a close event with its closure code. -/
inductive WSEvent
  | effectRun
  | openEvt
  | closeEvt (code : ℕ)
  deriving DecidableEq

/-- One step of the connection lifecycle: the effect constructs a socket (in the
CONNECTING state, stored in the singleton) only when the created check passes; the
open event moves the singleton socket to OPEN; a close event always nulls the
singleton (part_002 line 154) and retires the socket. -/
def wsStep (w : WSWorld) : WSEvent → WSWorld
  | WSEvent.effectRun =>
      if wsCreatedCheck w.singleton then
        { singleton := some ReadyState.connecting, liveSockets := w.liveSockets + 1 }
      else w
  | WSEvent.openEvt =>
      match w.singleton with
      | some ReadyState.connecting => { w with singleton := some ReadyState.opened }
      | _ => w
  | WSEvent.closeEvt _ =>
      match w.singleton with
      | some _ => { singleton := none, liveSockets := w.liveSockets - 1 }
      | none => w

/-- The initial module state: no singleton, no sockets. -/
def wsInit : WSWorld :=
  { singleton := none, liveSockets := 0 }

/-- Running the lifecycle over a list of events from the initial state. -/
def wsRun (es : List WSEvent) : WSWorld :=
  es.foldl wsStep wsInit

/-- The inductive invariant of the lifecycle: the number of non-closed sockets is one
when the singleton references a socket and zero otherwise, and the singleton never
holds a CLOSING or CLOSED socket (close events null it instead). -/
def WSInv (w : WSWorld) : Prop :=
  w.liveSockets = (if w.singleton.isSome then 1 else 0) ∧
  w.singleton ≠ some ReadyState.closing ∧ w.singleton ≠ some ReadyState.closed

lemma wsStep_preserves_inv (w : WSWorld) (e : WSEvent) (h : WSInv w) :
    WSInv (wsStep w e) := by
  rcases h with ⟨hcount, hnc, hncl⟩
  cases e with
  | effectRun =>
      by_cases hc : wsCreatedCheck w.singleton = true
      · have hnone : w.singleton = none := by
          rcases hs : w.singleton with _ | rs
          · rfl
          · cases rs <;> simp_all [wsCreatedCheck]
        have hz : w.liveSockets = 0 := by simpa [hnone] using hcount
        simp [wsStep, hc, WSInv, hz]
      · simpa [wsStep, hc, WSInv] using ⟨hcount, hnc, hncl⟩
  | openEvt =>
      rcases hs : w.singleton with _ | rs
      · simp_all [wsStep, WSInv]
      · cases rs <;> simp_all [wsStep, WSInv]
  | closeEvt code =>
      rcases hs : w.singleton with _ | rs
      · simp_all [wsStep, WSInv]
      · cases rs <;> simp_all [wsStep, WSInv]

lemma wsFoldl_preserves_inv (es : List WSEvent) (w : WSWorld) (h : WSInv w) :
    WSInv (es.foldl wsStep w) := by
  induction es generalizing w with
  | nil => exact h
  | cons e es ih => exact ih (wsStep w e) (wsStep_preserves_inv w e h)

lemma wsRun_inv (es : List WSEvent) : WSInv (wsRun es) :=
  wsFoldl_preserves_inv es wsInit (by simp [WSInv, wsInit])

/-- Claim C8: a new WebSocket is constructed only when the module-level singleton is
null or its readyState is CLOSING or CLOSED; the singleton is reset to null on every
close event; the connection-setup effect is idempotent under double initialization
(a second run right after a first changes nothing); and along every event trace from
the initial state at most one non-closed WebSocket instance exists. -/
theorem ws_singleton_discipline :
    (∀ s : Option ReadyState, wsCreatedCheck s = true ↔
      (s = none ∨ s = some ReadyState.closing ∨ s = some ReadyState.closed)) ∧
    (∀ w code, (wsStep w (WSEvent.closeEvt code)).singleton = none) ∧
    (∀ w, wsStep (wsStep w WSEvent.effectRun) WSEvent.effectRun =
      wsStep w WSEvent.effectRun) ∧
    (∀ es, (wsRun es).liveSockets ≤ 1) := by
  refine ⟨?_, ?_, ?_, ?_⟩
  · intro s
    rcases s with _ | rs
    · simp [wsCreatedCheck]
    · cases rs <;> simp [wsCreatedCheck]
  · intro w code
    rcases hs : w.singleton with _ | rs <;> simp [wsStep, hs]
  · intro w
    by_cases h : wsCreatedCheck w.singleton = true
    · have h2 : wsStep w WSEvent.effectRun =
          { singleton := some ReadyState.connecting, liveSockets := w.liveSockets + 1 } := by
        simp [wsStep, h]
      rw [h2]
      simp [wsStep, wsCreatedCheck]
    · have h2 : wsStep w WSEvent.effectRun = w := by simp [wsStep, h]
      rw [h2, h2]
  · intro es
    have h := (wsRun_inv es).1
    rw [h]
    split <;> simp

/-- Claim C8 witness: a double effect run from the initial state constructs exactly
one socket, and a subsequent close event nulls the singleton. -/
theorem ws_singleton_discipline_witness :
    (wsRun [WSEvent.effectRun, WSEvent.effectRun]).liveSockets ≤ 1 ∧
    (wsStep (wsRun [WSEvent.effectRun, WSEvent.effectRun]) (WSEvent.closeEvt 1006)).singleton
      = none :=
  ⟨ws_singleton_discipline.2.2.2 [WSEvent.effectRun, WSEvent.effectRun],
   ws_singleton_discipline.2.1 (wsRun [WSEvent.effectRun, WSEvent.effectRun]) 1006⟩

/-- `getOKXOrderHistory` query-string construction (api.ts lines 374-382): optional
symbol first, then limit and days, which are always appended. -/
def getOKXOrderHistoryParams (symbol : Option String) (limit days : ℕ) :
    List (String × String) :=
  (match symbol with
   | some s => [("symbol", s)]
   | none => []) ++ [("limit", toString limit), ("days", toString days)]

/-- `getOKXOrderHistory` with its default arguments limit = 100 and days = 7
(api.ts line 374). -/
def getOKXOrderHistoryDefaults (symbol : Option String) : List (String × String) :=
  getOKXOrderHistoryParams symbol 100 7

/-- `getOKXTrades` query-string construction (api.ts lines 384-392): the same shape as
the order-history query. -/
def getOKXTradesParams (symbol : Option String) (limit days : ℕ) :
    List (String × String) :=
  (match symbol with
   | some s => [("symbol", s)]
   | none => []) ++ [("limit", toString limit), ("days", toString days)]

/-- `getOKXTrades` with its default arguments limit = 100 and days = 7
(api.ts line 384). -/
def getOKXTradesDefaults (symbol : Option String) : List (String × String) :=
  getOKXTradesParams symbol 100 7

/-- Claim C9: a call to the order-history or trades query without explicit window
arguments always issues a request whose query string carries days=7 and limit=100. -/
theorem history_default_window (symbol : Option String) :
    ("days", "7") ∈ getOKXOrderHistoryDefaults symbol ∧
    ("limit", "100") ∈ getOKXOrderHistoryDefaults symbol ∧
    ("days", "7") ∈ getOKXTradesDefaults symbol ∧
    ("limit", "100") ∈ getOKXTradesDefaults symbol := by
  cases symbol <;>
    simp [getOKXOrderHistoryDefaults, getOKXOrderHistoryParams, getOKXTradesDefaults,
      getOKXTradesParams] <;>
    refine ⟨by decide, by decide, by decide, by decide⟩

/-- Claim C9 witness: the default-window facts at the concrete no-symbol call. -/
theorem history_default_window_witness :
    ("days", "7") ∈ getOKXOrderHistoryDefaults none ∧
    ("limit", "100") ∈ getOKXTradesDefaults none :=
  ⟨(history_default_window none).1, (history_default_window none).2.2.2⟩
